import Mathlib

/-!
Verification development for the OpenShift project-provisioning core of
ssp-backend (`server/openshift/project.go`).

The Go code manipulates dynamic JSON documents (github.com/Jeffail/gabs)
fetched from and written back to a per-cluster HTTP API.  The embedding
models JSON documents as an inductive `Json` type with association-list
objects, HTTP exchanges as explicit state passing of a `RunState` (remote
state plus a trace of issued requests), and the Go `error` values returned
by the functions as an `Err` inductive whose constructors carry the
user-facing message, one constructor per `errors.New` site / error family.
Go panics (nil dereference, failed type assertions) are modelled as the
distinguished `Outcome.panicked` result.
-/

namespace SSP

/-- JSON values, as decoded by gabs: objects are finite key/value maps
(represented as association lists; Go map key order is not observable
through the operations modelled here, all access is by key). -/
inductive Json where
  | null
  | bool (b : Bool)
  | num (n : Int)
  | str (s : String)
  | arr (items : List Json)
  | obj (fields : List (String × Json))

/-- Key lookup in an object's field list (first match wins, as in a map). -/
def lookupKey : List (String × Json) → String → Option Json
  | [], _ => none
  | (k', v) :: rest, k => if k' = k then some v else lookupKey rest k

/-- Key update in an object's field list: replace in place if present,
append otherwise (Go map assignment). -/
def setKey : List (String × Json) → String → Json → List (String × Json)
  | [], k, v => [(k, v)]
  | (k', v') :: rest, k, v =>
      if k' = k then (k, v) :: rest else (k', v') :: setKey rest k v

theorem lookupKey_setKey_self (l : List (String × Json)) (k : String) (v : Json) :
    lookupKey (setKey l k v) k = some v := by
  induction l with
  | nil => simp [setKey, lookupKey]
  | cons hd t ih =>
      obtain ⟨k', v'⟩ := hd
      by_cases hk : k' = k
      · simp [setKey, lookupKey, hk]
      · simp [setKey, lookupKey, hk, ih]

theorem lookupKey_setKey_ne (l : List (String × Json)) (k : String) (v : Json)
    (k' : String) (h : k' ≠ k) : lookupKey (setKey l k v) k' = lookupKey l k' := by
  induction l with
  | nil => simp [setKey, lookupKey, Ne.symm h]
  | cons hd t ih =>
      obtain ⟨k0, v0⟩ := hd
      by_cases hk : k0 = k
      · subst hk
        simp [setKey, lookupKey, Ne.symm h]
      · by_cases hk' : k0 = k'
        · subst hk'
          simp [setKey, lookupKey, hk]
        · simp [setKey, lookupKey, hk, hk', ih]

/-- Child lookup on a JSON value (`gabs` `Search`/`S` one step: non-objects
have no children). -/
def Json.getField : Json → String → Option Json
  | .obj fields, k => lookupKey fields k
  | _, _ => none

/-- `gabs` `ArrayAppend(value, key)` as used on role-binding documents: if
`key` holds an array, append to it; otherwise gabs reports an error, which
the caller ignores, and the document is left unchanged. -/
def Json.arrayAppend (j : Json) (v : Json) (key : String) : Json :=
  match j with
  | .obj fields =>
      match lookupKey fields key with
      | some (.arr xs) => .obj (setKey fields key (.arr (xs ++ [v])))
      | _ => j
  | _ => j

/-- The Go `error` values produced by this subsystem.  Each constructor
carries the user-facing message of the corresponding `errors.New` call;
the constructor identifies the error family of the spec's taxonomy
(ValidationError / AlreadyExistsError / RemoteAPIError / the "cluster
unknown" NotFoundError / the admin-permission refusal). -/
inductive Err where
  | validation (msg : String)
  | alreadyExists (msg : String)
  | remoteAPI (msg : String)
  | clusterNotFound (msg : String)
  | accessDenied (msg : String)
deriving DecidableEq, Repr

/-- err.Error(): the message the handlers serialize into the 400 response. -/
def Err.message : Err → String
  | .validation m => m
  | .alreadyExists m => m
  | .remoteAPI m => m
  | .clusterNotFound m => m
  | .accessDenied m => m

/-- Result of running one of the Go functions: a normal return value, a
returned `error`, or a panic (nil dereference / failed type assertion)
that unwinds past the function. -/
inductive Outcome (α : Type) where
  | ok (a : α)
  | err (e : Err)
  | panicked

/-- Modelled from the spec: the single generic user-facing message of
`RemoteAPIError` (§7).  The constant `genericAPIError` lives outside
`src/`; its exact wording is immaterial, only that it is one fixed
message distinct from the already-exists message. -/
def genericAPIError : String := "Error contacting the cluster API, try again later"

/-- Modelled from the spec: the "cluster unknown" message of the
resolver's NotFoundError (§4.1, §8); the constant lives outside `src/`. -/
def clusterUnknownMsg : String := "Cluster unknown"

/-- Modelled from the spec: the wrong-API-usage message used by the
handlers on malformed request bodies; the constant lives outside `src/`. -/
def wrongAPIUsageError : String := "Wrong API usage"

/-- Modelled from the spec: the fixed deletion-days constant injected into
test-project metadata (§4.2); the constant lives outside `src/` and the
spec does not fix its value, only that it is one fixed string. -/
def testProjectDeletionDays : String := "30"

/-- One HTTP request as issued by `getOseHTTPClient`. -/
structure Request where
  method : String
  clusterId : String
  apiPath : String
  body : Option Json

/-- One HTTP response: status code and body.  `body = none` models a
response body that does not decode as JSON (`gabs.ParseJSONBuffer` fails). -/
structure Response where
  status : Nat
  body : Option Json

/-- The remote side of one call: either a response or a transport error
carrying the underlying error message (`client.Do` failure). -/
structure Env (σ : Type) where
  clusters : List String
  handle : σ → Request → Except String Response × σ

/-- State threaded through a run: the remote state and the trace of
requests actually issued (in order). -/
structure RunState (σ : Type) where
  remote : σ
  trace : List Request

/-- Modelled from the spec: `getOseHTTPClient` lives outside `src/`.
Per §4.1 the cluster id is resolved first — an unknown id fails with the
"cluster unknown" NotFoundError and no request is issued; per §7 a
transport failure is collapsed to the generic `RemoteAPIError` message
(the underlying error is only logged).  A request that is issued is
appended to the trace whether or not it succeeds. -/
def getOseHTTPClient (env : Env σ) (method clusterId apiPath : String)
    (body : Option Json) (s : RunState σ) : Except Err Response × RunState σ :=
  if clusterId ∈ env.clusters then
    match env.handle s.remote ⟨method, clusterId, apiPath, body⟩ with
    | (.ok r, rem) => (.ok r, ⟨rem, s.trace ++ [⟨method, clusterId, apiPath, body⟩]⟩)
    | (.error _, rem) =>
        (.error (.remoteAPI genericAPIError),
         ⟨rem, s.trace ++ [⟨method, clusterId, apiPath, body⟩]⟩)
  else
    (.error (.clusterNotFound clusterUnknownMsg), s)

/-- Go `strings.ToLower` on the character data (ASCII case mapping,
the relevant range for the identifiers involved; Lean's own
`String.toLower` is defined by well-founded recursion on byte
positions, which a witness could not evaluate by `rfl`). -/
def strLower (s : String) : String := ⟨s.data.map Char.toLower⟩

/-- Go `strings.ToUpper`, as `strLower`. -/
def strUpper (s : String) : String := ⟨s.data.map Char.toUpper⟩

/-- Path of the namespace-metadata resource, as concatenated in
`project.go` (`"api/v1/namespaces/" + project`). -/
def nsPath (project : String) : String := "api/v1/namespaces/" ++ project

/-- Path of the admin role-binding resource, as concatenated in
`project.go` (`"oapi/v1/namespaces/" + project + "/rolebindings/admin"`). -/
def rbPath (project : String) : String :=
  "oapi/v1/namespaces/" ++ project ++ "/rolebindings/admin"

/-- Modelled from the spec: `newObjectRequest` lives outside `src/`; per
§6 the creation body is `{kind:"ProjectRequest", metadata:{name}}`. -/
def newObjectRequest (kind name : String) : Json :=
  .obj [("kind", .str kind), ("metadata", .obj [("name", .str name)])]

/-- `validateNewProject` (project.go:182-192): project name required;
billing ("Accounting number") required unless it is a test project. -/
def validateNewProject (project billing : String) (testProject : Bool) :
    Except Err Unit :=
  if project.length = 0 then
    .error (.validation "Project name has to be provided")
  else if !testProject && billing.length = 0 then
    .error (.validation "Accounting number must be provided")
  else
    .ok ()

/-- Modelled from the spec: `getAdminRoleBinding` lives outside `src/`.
Per §4.3 it GETs `{project}/rolebindings/admin`; any non-200 status or
body-decode failure surfaces the generic `RemoteAPIError`. -/
def getAdminRoleBinding (env : Env σ) (clusterId project : String)
    (s : RunState σ) : Except Err Json × RunState σ :=
  match getOseHTTPClient env "GET" clusterId (rbPath project) none s with
  | (.error e, s1) => (.error e, s1)
  | (.ok resp, s1) =>
      if resp.status = 200 then
        match resp.body with
        | some doc => (.ok doc, s1)
        | none => (.error (.remoteAPI genericAPIError), s1)
      else (.error (.remoteAPI genericAPIError), s1)

/-- `changeProjectPermission` (project.go:313-341): fetch the admin
role binding, append the lower- and upper-cased username to `userNames`,
PUT the document back; non-200 on the PUT yields the generic error. -/
def changeProjectPermission (env : Env σ) (clusterId project username : String)
    (s : RunState σ) : Outcome Unit × RunState σ :=
  match getAdminRoleBinding env clusterId project s with
  | (.error e, s1) => (.err e, s1)
  | (.ok adminRoleBinding, s1) =>
      let rb2 := (adminRoleBinding.arrayAppend (.str (strLower username)) "userNames").arrayAppend
          (.str (strUpper username)) "userNames"
      match getOseHTTPClient env "PUT" clusterId (rbPath project) (some rb2) s1 with
      | (.error e, s2) => (.err e, s2)
      | (.ok resp, s2) =>
          if resp.status = 200 then (.ok (), s2)
          else (.err (.remoteAPI genericAPIError), s2)

/-- Annotation keys used by project.go. -/
def kontierungKey : String := "openshift.io/kontierung-element"

def requesterKey : String := "openshift.io/requester"

def megaIdKey : String := "openshift.io/MEGAID"

def daysToDeletionKey : String := "openshift.io/testproject-daystodeletion"

def descriptionKey : String := "openshift.io/description"

/-- The description text written for test projects
(`fmt.Sprintf("Dieses Testprojekt wird in %v Tagen automatisch gelöscht!", ...)`). -/
def testProjectDescriptionMsg : String :=
  "Dieses Testprojekt wird in " ++ testProjectDeletionDays ++
    " Tagen automatisch gelöscht!"

/-- The annotation mutation of `createOrUpdateMetadata` (project.go:390-401),
applied to the `metadata.annotations` object of the fetched document:
billing and requester are always set; the two test-project keys are set
when `testProject`; MEGAID is set only when `megaid` is non-empty. -/
def metadataAnnotationsUpdate (billing megaid username : String)
    (testProject : Bool) (ann : List (String × Json)) : List (String × Json) :=
  let a1 := setKey ann kontierungKey (.str billing)
  let a2 := setKey a1 requesterKey (.str username)
  let a3 :=
    if testProject then
      setKey (setKey a2 daysToDeletionKey (.str testProjectDeletionDays))
        descriptionKey (.str testProjectDescriptionMsg)
    else a2
  if megaid.length > 0 then setKey a3 megaIdKey (.str megaid) else a3

/-- The in-place mutation of the fetched namespace document through the
gabs container returned by `json.Path("metadata.annotations")`:
if `metadata` holds an object with an `annotations` object, the
annotations are rewritten inside the full document (which is then PUT
back whole).  When `annotations` is missing, null, or not an object,
gabs either writes into a detached container or reports an ignored
error, so the document is written back unchanged.  When `metadata`
itself is missing or not an object (`none`), the original code
dereferences a nil container and panics before any PUT. -/
def updateNamespaceDoc (doc : Json)
    (f : List (String × Json) → List (String × Json)) : Option Json :=
  match doc with
  | .obj fields =>
      match lookupKey fields "metadata" with
      | some (.obj md) =>
          match lookupKey md "annotations" with
          | some (.obj ann) =>
              some (.obj (setKey fields "metadata"
                (.obj (setKey md "annotations" (.obj (f ann))))))
          | _ => some doc
      | _ => none
  | _ => none

/-- `createOrUpdateMetadata` (project.go:376-418): GET the namespace
object (note: without checking the GET status), decode it, set the
annotation keys, PUT the full document back; 200 on the PUT is success,
anything else the generic error. -/
def createOrUpdateMetadata (env : Env σ)
    (clusterId project billing megaid username : String) (testProject : Bool)
    (s : RunState σ) : Outcome Unit × RunState σ :=
  match getOseHTTPClient env "GET" clusterId (nsPath project) none s with
  | (.error e, s1) => (.err e, s1)
  | (.ok resp, s1) =>
      match resp.body with
      | none => (.err (.remoteAPI genericAPIError), s1)
      | some doc =>
          match updateNamespaceDoc doc
              (metadataAnnotationsUpdate billing megaid username testProject) with
          | none => (.panicked, s1)
          | some doc2 =>
              match getOseHTTPClient env "PUT" clusterId (nsPath project)
                  (some doc2) s1 with
              | (.error e, s2) => (.err e, s2)
              | (.ok resp2, s2) =>
                  if resp2.status = 200 then (.ok (), s2)
                  else (.err (.remoteAPI genericAPIError), s2)

/-- The flat record returned by `getProjectInformation`. -/
structure ProjectInformation where
  kontierungsnummer : String
  megaID : String
deriving DecidableEq, Repr

/-- The nil-safe gabs read chain
`json.Path("metadata.annotations").S(key).Data()`: any missing or
non-object level yields nil (`none`). -/
def annotationData (doc : Json) (key : String) : Option Json :=
  match doc with
  | .obj fields =>
      match lookupKey fields "metadata" with
      | some (.obj md) =>
          match lookupKey md "annotations" with
          | some (.obj ann) => lookupKey ann key
          | _ => none
      | _ => none
  | _ => none

/-- The `.(string)` type assertion applied after defaulting nil to "":
nil (or JSON null, which decodes to nil) becomes the empty string, a
string is taken as is, and any other value makes the assertion panic. -/
def dataAsString : Option Json → Option String
  | none => some ""
  | some .null => some ""
  | some (.str s) => some s
  | some _ => none

/-- `getProjectInformation` (project.go:348-374): GET the namespace
object (status code not checked), decode it, read the billing and
MEGA-ID annotations defaulting each absent one to the empty string. -/
def getProjectInformation (env : Env σ) (clusterId project : String)
    (s : RunState σ) : Outcome ProjectInformation × RunState σ :=
  match getOseHTTPClient env "GET" clusterId (nsPath project) none s with
  | (.error e, s1) => (.err e, s1)
  | (.ok resp, s1) =>
      match resp.body with
      | none => (.err (.remoteAPI genericAPIError), s1)
      | some doc =>
          match dataAsString (annotationData doc kontierungKey),
              dataAsString (annotationData doc megaIdKey) with
          | some billing, some megaid => (.ok ⟨billing, megaid⟩, s1)
          | _, _ => (.panicked, s1)

/-- The loop of `getUserProjects` (project.go:110-113): extract
`metadata.name` of every item.  Here the `.(string)` assertion is applied
directly to `Data()` with no nil-defaulting, so a missing, null or
non-string name panics (`none`). -/
def extractProjectNames : List Json → Option (List String)
  | [] => some []
  | j :: rest =>
      match (match j.getField "metadata" with
        | some md => md.getField "name"
        | none => none) with
      | some (.str n) => (extractProjectNames rest).map (n :: ·)
      | _ => none

/-- `getUserProjects` (project.go:91-115): GET the cluster's project
list and return each item's `metadata.name`.  The `username` argument is
accepted but never used (the TODO at project.go:92 records the
unimplemented intent to filter). -/
def getUserProjects (env : Env σ) (clusterid username : String)
    (s : RunState σ) : Outcome (List String) × RunState σ :=
  match getOseHTTPClient env "GET" clusterid "oapi/v1/projects" none s with
  | (.error e, s1) => (.err e, s1)
  | (.ok resp, s1) =>
      match resp.body with
      | none => (.err (.remoteAPI genericAPIError), s1)
      | some doc =>
          match doc.getField "items" with
          | some (.arr items) =>
              match extractProjectNames items with
              | some names => (.ok names, s1)
              | none => (.panicked, s1)
          | _ => (.err (.remoteAPI genericAPIError), s1)

/-- `createNewProject` (project.go:281-311): lower-case the name, POST
the creation request; 201 advances to the permission and metadata steps,
409 is the already-exists error, anything else the generic error. -/
def createNewProject (env : Env σ)
    (clusterId project username billing megaid : String) (testProject : Bool)
    (s : RunState σ) : Outcome Unit × RunState σ :=
  let project := strLower project
  let projectObject := newObjectRequest "ProjectRequest" project
  match getOseHTTPClient env "POST" clusterId "oapi/v1/projectrequests"
      (some projectObject) s with
  | (.error e, s1) => (.err e, s1)
  | (.ok resp, s1) =>
      if resp.status = 201 then
        match changeProjectPermission env clusterId project username s1 with
        | (.err e, s2) => (.err e, s2)
        | (.panicked, s2) => (.panicked, s2)
        | (.ok _, s2) =>
            match createOrUpdateMetadata env clusterId project billing megaid
                username testProject s2 with
            | (.err e, s3) => (.err e, s3)
            | (.panicked, s3) => (.panicked, s3)
            | (.ok _, s3) => (.ok (), s3)
      else if resp.status = 409 then
        (.err (.alreadyExists "The project already exists"), s1)
      else
        (.err (.remoteAPI genericAPIError), s1)

/-- Modelled from the spec: `checkAdminPermissions` lives outside `src/`.
Per §4.5/§4.3 it reads the admin role-binding member list and accepts
exactly when the acting user appears in it (case-insensitively); errors
of the read propagate. -/
def checkAdminPermissions (env : Env σ) (clusterId username project : String)
    (s : RunState σ) : Outcome Unit × RunState σ :=
  match getAdminRoleBinding env clusterId project s with
  | (.error e, s1) => (.err e, s1)
  | (.ok rb, s1) =>
      match rb.getField "userNames" with
      | some (.arr xs) =>
          if xs.any (fun j => match j with
              | .str m => strLower m == strLower username
              | _ => false) then
            (.ok (), s1)
          else
            (.err (.accessDenied "You need admin permissions on this project"), s1)
      | _ => (.err (.accessDenied "You need admin permissions on this project"), s1)

/-- `validateAdminAccess` (project.go:194-209): required cluster id and
project name, then the admin-permission check. -/
def validateAdminAccess (env : Env σ) (clusterId username project : String)
    (s : RunState σ) : Outcome Unit × RunState σ :=
  if clusterId = "" then (.err (.validation "Cluster must be provided"), s)
  else if project = "" then (.err (.validation "Project name must be provided"), s)
  else checkAdminPermissions env clusterId username project s

/-- A body serialized by one `c.JSON` call of a handler. -/
inductive HandlerBody where
  | message (msg : String)
  | projectInfo (pi : Option ProjectInformation)
deriving DecidableEq, Repr

/-- `getProjectInformationHandler` (project.go:140-158).  The list is the
sequence of `c.JSON(status, body)` calls the handler performs; note the
missing `return` in the error branch of `getProjectInformation`, after
which the handler still writes the 200 response with the nil pointer.
On a panic the handler body writes nothing (gin's recovery middleware,
outside this file's scope, produces the 500). -/
def getProjectInformationHandler (env : Env σ)
    (clusterId project username : String) (s : RunState σ) :
    List (Nat × HandlerBody) × RunState σ :=
  match validateAdminAccess env clusterId username project s with
  | (.err e, s1) => ([(400, .message e.message)], s1)
  | (.panicked, s1) => ([], s1)
  | (.ok _, s1) =>
      match getProjectInformation env clusterId project s1 with
      | (.err e, s2) => ([(400, .message e.message), (200, .projectInfo none)], s2)
      | (.panicked, s2) => ([], s2)
      | (.ok pi, s2) => ([(200, .projectInfo (some pi))], s2)

/-- The JSON body of a new-test-project request
(`common.NewTestProjectCommand`). -/
structure NewTestProjectCommand where
  project : String
  clusterId : String

/-- `newTestProjectHandler` (project.go:48-72): `data = none` models a
body `BindJSON` rejects; billing is forced to the no-billing sentinel
and the project name is prefixed with the creator's username before
validation and creation. -/
def newTestProjectHandler (env : Env σ) (username : String)
    (data : Option NewTestProjectCommand) (s : RunState σ) :
    List (Nat × HandlerBody) × RunState σ :=
  match data with
  | none => ([(400, .message wrongAPIUsageError)], s)
  | some d =>
      let billing := "keine-verrechnung"
      let project := username ++ "-" ++ d.project
      match validateNewProject project billing true with
      | .error e => ([(400, .message e.message)], s)
      | .ok _ =>
          match createNewProject env d.clusterId project username billing "" true s with
          | (.err e, s1) => ([(400, .message e.message)], s1)
          | (.panicked, s1) => ([], s1)
          | (.ok _, s1) =>
              ([(200, .message ("Das Test-Projekt " ++ project ++
                  " wurde erstellt auf Cluster " ++ d.clusterId))], s1)

/-!
A spec-modelled remote cluster, used to settle the claims whose content
is the composite read-modify-write behaviour against the platform
(round-trips, duplicate membership, stored test-project metadata).  The
model follows the external-interface contract of §6: resources are
plain documents stored under their request path, POST to the
project-creation endpoint is the only uniqueness point (409 on an
existing name, 201 otherwise, creating an empty-annotations namespace
document and an empty admin role binding), GET returns the stored
document, PUT overwrites it blindly (no optimistic concurrency). -/

/-- State of one modelled cluster: the created project names and the
stored documents, keyed by resource path. -/
structure ClusterState where
  projects : List String
  objects : List (String × Json)

/-- A generic JSON status body for non-2xx modelled responses. -/
def statusDoc (msg : String) : Json :=
  .obj [("kind", .str "Status"), ("message", .str msg)]

/-- The name carried by a creation-request document (§6). -/
def requestName (body : Option Json) : Option String :=
  match body with
  | some doc =>
      match doc.getField "metadata" with
      | some md =>
          match md.getField "name" with
          | some (.str n) => some n
          | _ => none
      | _ => none
  | none => none

/-- The namespace document of a freshly created project: a metadata
object carrying the name and an empty annotations object. -/
def initialNamespace (n : String) : Json :=
  .obj [("kind", .str "Namespace"),
        ("metadata", .obj [("name", .str n), ("annotations", .obj [])])]

/-- The admin role binding of a freshly created project: an empty
member list. -/
def initialRoleBinding : Json := .obj [("userNames", .arr [])]

/-- Request handling of the modelled cluster (§6). -/
def openshiftHandle (st : ClusterState) (req : Request) :
    Except String Response × ClusterState :=
  if req.method = "POST" then
    if req.apiPath = "oapi/v1/projectrequests" then
      match requestName req.body with
      | some n =>
          if n ∈ st.projects then
            (.ok ⟨409, some (statusDoc "AlreadyExists")⟩, st)
          else
            (.ok ⟨201, some (statusDoc "Created")⟩,
             ⟨st.projects ++ [n],
              setKey (setKey st.objects (nsPath n) (initialNamespace n))
                (rbPath n) initialRoleBinding⟩)
      | none => (.ok ⟨400, some (statusDoc "BadRequest")⟩, st)
    else (.ok ⟨404, some (statusDoc "NotFound")⟩, st)
  else if req.method = "GET" then
    match lookupKey st.objects req.apiPath with
    | some doc => (.ok ⟨200, some doc⟩, st)
    | none => (.ok ⟨404, some (statusDoc "NotFound")⟩, st)
  else if req.method = "PUT" then
    match req.body with
    | some doc => (.ok ⟨200, some doc⟩, ⟨st.projects, setKey st.objects req.apiPath doc⟩)
    | none => (.ok ⟨400, some (statusDoc "BadRequest")⟩, st)
  else (.ok ⟨404, some (statusDoc "NotFound")⟩, st)

/-- The environment whose remote side is the modelled cluster. -/
def oseEnv (cls : List String) : Env ClusterState := ⟨cls, openshiftHandle⟩

/-! Helper lemmas. -/

theorem string_data_append (a b : String) : (a ++ b).data = a.data ++ b.data := by
  cases a
  cases b
  rfl

theorem string_length_eq_zero (s : String) : s.length = 0 ↔ s = "" := by
  constructor
  · intro h
    cases s with
    | mk l =>
        have hl : l.length = 0 := h
        have : l = [] := List.length_eq_zero.mp hl
        subst this
        rfl
  · intro h
    subst h
    rfl

theorem nsPath_ne_rbPath (a b : String) : nsPath a ≠ rbPath b := by
  intro h
  have hd : (nsPath a).data = (rbPath b).data := congrArg String.data h
  rw [nsPath, rbPath, string_data_append, string_data_append, string_data_append] at hd
  have h1 : "api/v1/namespaces/".data = 'a' :: "pi/v1/namespaces/".data := by decide
  have h2 : "oapi/v1/namespaces/".data = 'o' :: "api/v1/namespaces/".data := by decide
  rw [h1, h2] at hd
  rw [List.cons_append] at hd
  rw [List.cons_append] at hd
  exact absurd (List.cons.inj hd).1 (by decide)

theorem setKey_setKey (l : List (String × Json)) (k : String) (v w : Json) :
    setKey (setKey l k v) k w = setKey l k w := by
  induction l with
  | nil => simp [setKey]
  | cons hd t ih =>
      obtain ⟨k0, v0⟩ := hd
      by_cases hk : k0 = k
      · simp [setKey, hk]
      · simp [setKey, hk, ih]

/-- Outcomes of one issued HTTP call on a known cluster: either the
handled response, or a transport failure already collapsed to the
generic message. -/
theorem getOseHTTPClient_cases (env : Env σ) (method cid path : String)
    (body : Option Json) (s : RunState σ) (hc : cid ∈ env.clusters) :
    (∃ r rem, env.handle s.remote ⟨method, cid, path, body⟩ = (.ok r, rem) ∧
      getOseHTTPClient env method cid path body s =
        (.ok r, ⟨rem, s.trace ++ [⟨method, cid, path, body⟩]⟩)) ∨
    (∃ rem, getOseHTTPClient env method cid path body s =
      (.error (.remoteAPI genericAPIError),
       ⟨rem, s.trace ++ [⟨method, cid, path, body⟩]⟩)) := by
  rcases henv : env.handle s.remote ⟨method, cid, path, body⟩ with ⟨res, rem⟩
  cases res with
  | ok r =>
      left
      refine ⟨r, rem, rfl, ?_⟩
      simp [getOseHTTPClient, hc, henv]
  | error msg =>
      right
      refine ⟨rem, ?_⟩
      simp [getOseHTTPClient, hc, henv]

/-- On a known cluster, `getAdminRoleBinding` either yields a document or
the generic `RemoteAPIError` (non-200 status, transport failure and
decode failure are all collapsed). -/
theorem getAdminRoleBinding_errors (env : Env σ) (cid proj : String)
    (s : RunState σ) (hc : cid ∈ env.clusters) :
    (∃ doc, (getAdminRoleBinding env cid proj s).1 = .ok doc) ∨
    (getAdminRoleBinding env cid proj s).1 = .error (.remoteAPI genericAPIError) := by
  rcases getOseHTTPClient_cases env "GET" cid (rbPath proj) none s hc with
    ⟨r, rem, -, hcall⟩ | ⟨rem, hcall⟩
  · by_cases hst : r.status = 200
    · rcases hbody : r.body with - | doc
      · right
        simp [getAdminRoleBinding, hcall, hst, hbody]
      · left
        exact ⟨doc, by simp [getAdminRoleBinding, hcall, hst, hbody]⟩
    · right
      simp [getAdminRoleBinding, hcall, hst]
  · right
    simp [getAdminRoleBinding, hcall]

theorem metadataAnnotationsUpdate_kontierung (b m u : String) (tp : Bool)
    (ann : List (String × Json)) :
    lookupKey (metadataAnnotationsUpdate b m u tp ann) kontierungKey =
      some (.str b) := by
  have hmega : ∀ x v, lookupKey (setKey x megaIdKey v) kontierungKey =
      lookupKey x kontierungKey :=
    fun x v => lookupKey_setKey_ne x megaIdKey v kontierungKey (by decide)
  have hdesc : ∀ x v, lookupKey (setKey x descriptionKey v) kontierungKey =
      lookupKey x kontierungKey :=
    fun x v => lookupKey_setKey_ne x descriptionKey v kontierungKey (by decide)
  have hdays : ∀ x v, lookupKey (setKey x daysToDeletionKey v) kontierungKey =
      lookupKey x kontierungKey :=
    fun x v => lookupKey_setKey_ne x daysToDeletionKey v kontierungKey (by decide)
  have hreq : ∀ x v, lookupKey (setKey x requesterKey v) kontierungKey =
      lookupKey x kontierungKey :=
    fun x v => lookupKey_setKey_ne x requesterKey v kontierungKey (by decide)
  unfold metadataAnnotationsUpdate
  by_cases hm : m.length > 0 <;> cases tp <;>
    simp [hm, hmega, hdesc, hdays, hreq, lookupKey_setKey_self]

theorem metadataAnnotationsUpdate_requester (b m u : String) (tp : Bool)
    (ann : List (String × Json)) :
    lookupKey (metadataAnnotationsUpdate b m u tp ann) requesterKey =
      some (.str u) := by
  have hmega : ∀ x v, lookupKey (setKey x megaIdKey v) requesterKey =
      lookupKey x requesterKey :=
    fun x v => lookupKey_setKey_ne x megaIdKey v requesterKey (by decide)
  have hdesc : ∀ x v, lookupKey (setKey x descriptionKey v) requesterKey =
      lookupKey x requesterKey :=
    fun x v => lookupKey_setKey_ne x descriptionKey v requesterKey (by decide)
  have hdays : ∀ x v, lookupKey (setKey x daysToDeletionKey v) requesterKey =
      lookupKey x requesterKey :=
    fun x v => lookupKey_setKey_ne x daysToDeletionKey v requesterKey (by decide)
  unfold metadataAnnotationsUpdate
  by_cases hm : m.length > 0 <;> cases tp <;>
    simp [hm, hmega, hdesc, hdays, lookupKey_setKey_self]

theorem metadataAnnotationsUpdate_megaid (b m u : String) (tp : Bool)
    (ann : List (String × Json)) :
    lookupKey (metadataAnnotationsUpdate b m u tp ann) megaIdKey =
      (if m.length > 0 then some (.str m) else lookupKey ann megaIdKey) := by
  have hkon : ∀ x v, lookupKey (setKey x kontierungKey v) megaIdKey =
      lookupKey x megaIdKey :=
    fun x v => lookupKey_setKey_ne x kontierungKey v megaIdKey (by decide)
  have hreq : ∀ x v, lookupKey (setKey x requesterKey v) megaIdKey =
      lookupKey x megaIdKey :=
    fun x v => lookupKey_setKey_ne x requesterKey v megaIdKey (by decide)
  have hdesc : ∀ x v, lookupKey (setKey x descriptionKey v) megaIdKey =
      lookupKey x megaIdKey :=
    fun x v => lookupKey_setKey_ne x descriptionKey v megaIdKey (by decide)
  have hdays : ∀ x v, lookupKey (setKey x daysToDeletionKey v) megaIdKey =
      lookupKey x megaIdKey :=
    fun x v => lookupKey_setKey_ne x daysToDeletionKey v megaIdKey (by decide)
  unfold metadataAnnotationsUpdate
  by_cases hm : m.length > 0 <;> cases tp <;>
    simp [hm, hkon, hreq, hdesc, hdays, lookupKey_setKey_self]

theorem metadataAnnotationsUpdate_testKeys (b m u : String)
    (ann : List (String × Json)) :
    lookupKey (metadataAnnotationsUpdate b m u true ann) daysToDeletionKey =
      some (.str testProjectDeletionDays) ∧
    lookupKey (metadataAnnotationsUpdate b m u true ann) descriptionKey =
      some (.str testProjectDescriptionMsg) := by
  have hm1 : ∀ x v, lookupKey (setKey x megaIdKey v) daysToDeletionKey =
      lookupKey x daysToDeletionKey :=
    fun x v => lookupKey_setKey_ne x megaIdKey v daysToDeletionKey (by decide)
  have hm2 : ∀ x v, lookupKey (setKey x megaIdKey v) descriptionKey =
      lookupKey x descriptionKey :=
    fun x v => lookupKey_setKey_ne x megaIdKey v descriptionKey (by decide)
  have hd1 : ∀ x v, lookupKey (setKey x descriptionKey v) daysToDeletionKey =
      lookupKey x daysToDeletionKey :=
    fun x v => lookupKey_setKey_ne x descriptionKey v daysToDeletionKey (by decide)
  unfold metadataAnnotationsUpdate
  by_cases hm : m.length > 0 <;>
    simp [hm, hm1, hm2, hd1, lookupKey_setKey_self]

theorem metadataAnnotationsUpdate_nonTestKeys (b m u : String)
    (ann : List (String × Json)) :
    lookupKey (metadataAnnotationsUpdate b m u false ann) daysToDeletionKey =
      lookupKey ann daysToDeletionKey ∧
    lookupKey (metadataAnnotationsUpdate b m u false ann) descriptionKey =
      lookupKey ann descriptionKey := by
  have h1 : ∀ (k : String), k = daysToDeletionKey ∨ k = descriptionKey →
      lookupKey (metadataAnnotationsUpdate b m u false ann) k = lookupKey ann k := by
    intro k hk
    have hmega : lookupKey (setKey (setKey (setKey ann kontierungKey (.str b))
        requesterKey (.str u)) megaIdKey (.str m)) k =
        lookupKey (setKey (setKey ann kontierungKey (.str b))
          requesterKey (.str u)) k := by
      rcases hk with rfl | rfl
      · exact lookupKey_setKey_ne _ megaIdKey _ _ (by decide)
      · exact lookupKey_setKey_ne _ megaIdKey _ _ (by decide)
    have hreq : lookupKey (setKey (setKey ann kontierungKey (.str b))
        requesterKey (.str u)) k = lookupKey (setKey ann kontierungKey (.str b)) k := by
      rcases hk with rfl | rfl
      · exact lookupKey_setKey_ne _ requesterKey _ _ (by decide)
      · exact lookupKey_setKey_ne _ requesterKey _ _ (by decide)
    have hkon : lookupKey (setKey ann kontierungKey (.str b)) k = lookupKey ann k := by
      rcases hk with rfl | rfl
      · exact lookupKey_setKey_ne _ kontierungKey _ _ (by decide)
      · exact lookupKey_setKey_ne _ kontierungKey _ _ (by decide)
    unfold metadataAnnotationsUpdate
    by_cases hm : m.length > 0 <;> simp [hm, hmega, hreq, hkon]
  exact ⟨h1 daysToDeletionKey (Or.inl rfl), h1 descriptionKey (Or.inr rfl)⟩

theorem metadataAnnotationsUpdate_other (b m u : String) (tp : Bool)
    (ann : List (String × Json)) (k : String)
    (h1 : k ≠ kontierungKey) (h2 : k ≠ requesterKey) (h3 : k ≠ megaIdKey)
    (h4 : k ≠ daysToDeletionKey) (h5 : k ≠ descriptionKey) :
    lookupKey (metadataAnnotationsUpdate b m u tp ann) k = lookupKey ann k := by
  have e1 : ∀ x v, lookupKey (setKey x kontierungKey v) k = lookupKey x k :=
    fun x v => lookupKey_setKey_ne x kontierungKey v k h1
  have e2 : ∀ x v, lookupKey (setKey x requesterKey v) k = lookupKey x k :=
    fun x v => lookupKey_setKey_ne x requesterKey v k h2
  have e3 : ∀ x v, lookupKey (setKey x megaIdKey v) k = lookupKey x k :=
    fun x v => lookupKey_setKey_ne x megaIdKey v k h3
  have e4 : ∀ x v, lookupKey (setKey x daysToDeletionKey v) k = lookupKey x k :=
    fun x v => lookupKey_setKey_ne x daysToDeletionKey v k h4
  have e5 : ∀ x v, lookupKey (setKey x descriptionKey v) k = lookupKey x k :=
    fun x v => lookupKey_setKey_ne x descriptionKey v k h5
  unfold metadataAnnotationsUpdate
  by_cases hm : m.length > 0 <;> cases tp <;> simp [hm, e1, e2, e3, e4, e5]

/-!  Claim theorems. -/

/-- C6: validation passes exactly when the project name is non-empty and
either the billing code is non-empty or it is a test project; an empty
project name fails citing the project field (regardless of billing), and
a non-test request with an empty billing code (and a non-empty project
name, which takes precedence) fails citing the billing field. -/
theorem validateNewProject_characterization (p b : String) (tp : Bool) :
    (validateNewProject p b tp = .ok () ↔ (p ≠ "" ∧ (b ≠ "" ∨ tp = true)))
    ∧ (p = "" →
        validateNewProject p b tp =
          .error (.validation "Project name has to be provided"))
    ∧ (p ≠ "" → tp = false → b = "" →
        validateNewProject p b tp =
          .error (.validation "Accounting number must be provided")) := by
  by_cases h1 : p = "" <;> by_cases h2 : b = "" <;> cases tp <;>
    simp_all [validateNewProject, string_length_eq_zero]

/-- C6 witness: concrete instances of the three clauses. -/
theorem validateNewProject_characterization_witness :
    validateNewProject "demo" "" true = .ok () ∧
    validateNewProject "" "b1" false =
      .error (.validation "Project name has to be provided") ∧
    validateNewProject "demo" "" false =
      .error (.validation "Accounting number must be provided") :=
  ⟨(validateNewProject_characterization "demo" "" true).1.mpr
      ⟨by decide, Or.inr rfl⟩,
   (validateNewProject_characterization "" "b1" false).2.1 rfl,
   (validateNewProject_characterization "demo" "" false).2.2 (by decide) rfl rfl⟩

/-- C8: a creation request whose cluster id matches no configured cluster
fails with the distinguishable "cluster unknown" error, is never the
generic `RemoteAPIError`, and issues no HTTP request at all (the run
state, including the request trace, is unchanged). -/
theorem createNewProject_unknown_cluster (env : Env σ) (s : RunState σ)
    (cid p u b m : String) (tp : Bool) (hc : cid ∉ env.clusters) :
    createNewProject env cid p u b m tp s =
      (.err (.clusterNotFound clusterUnknownMsg), s) ∧
    (createNewProject env cid p u b m tp s).2.trace = s.trace ∧
    ∀ msg, (createNewProject env cid p u b m tp s).1 ≠ .err (.remoteAPI msg) := by
  have h1 : createNewProject env cid p u b m tp s =
      (.err (.clusterNotFound clusterUnknownMsg), s) := by
    simp [createNewProject, getOseHTTPClient, hc]
  refine ⟨h1, by rw [h1], fun msg => ?_⟩
  rw [h1]
  simp

/-- C8 witness: a creation on an unconfigured cluster id. -/
theorem createNewProject_unknown_cluster_witness :
    createNewProject (oseEnv ["c1"]) "other" "p" "u" "b" "m" false ⟨⟨[], []⟩, []⟩ =
      (.err (.clusterNotFound clusterUnknownMsg), ⟨⟨[], []⟩, []⟩) :=
  (createNewProject_unknown_cluster (oseEnv ["c1"]) ⟨⟨[], []⟩, []⟩
    "other" "p" "u" "b" "m" false (by decide)).1

/-- C9: `getUserProjects` ignores its username argument — any two users
receive the identical result on the same cluster and state — and on a
successful list response the result is exactly the `metadata.name` of
every item of the cluster's project list. -/
theorem getUserProjects_username_independent (env : Env σ) (s : RunState σ)
    (clusterid u1 u2 : String) :
    getUserProjects env clusterid u1 s = getUserProjects env clusterid u2 s ∧
    (∀ r rem doc items names, clusterid ∈ env.clusters →
      env.handle s.remote ⟨"GET", clusterid, "oapi/v1/projects", none⟩ =
        (.ok r, rem) →
      r.body = some doc →
      doc.getField "items" = some (.arr items) →
      extractProjectNames items = some names →
      getUserProjects env clusterid u1 s =
        (.ok names,
         ⟨rem, s.trace ++ [⟨"GET", clusterid, "oapi/v1/projects", none⟩]⟩)) := by
  refine ⟨rfl, fun r rem doc items names hc hh hb hi hn => ?_⟩
  simp [getUserProjects, getOseHTTPClient, hc, hh, hb, hi, hn]

/-- C9 witness: the same project list for two different usernames, with
the names extracted from the stored items document. -/
theorem getUserProjects_username_independent_witness :
    getUserProjects (oseEnv ["c1"]) "c1" "alice"
      ⟨⟨["p1"], [("oapi/v1/projects",
        Json.obj [("items", Json.arr [initialNamespace "p1"])])]⟩, []⟩ =
      (.ok ["p1"],
       ⟨⟨["p1"], [("oapi/v1/projects",
          Json.obj [("items", Json.arr [initialNamespace "p1"])])]⟩,
        [⟨"GET", "c1", "oapi/v1/projects", none⟩]⟩) :=
  (getUserProjects_username_independent (oseEnv ["c1"])
      ⟨⟨["p1"], [("oapi/v1/projects",
        Json.obj [("items", Json.arr [initialNamespace "p1"])])]⟩, []⟩
      "c1" "alice" "bob").2
    ⟨200, some (Json.obj [("items", Json.arr [initialNamespace "p1"])])⟩
    ⟨["p1"], [("oapi/v1/projects",
      Json.obj [("items", Json.arr [initialNamespace "p1"])])]⟩
    (Json.obj [("items", Json.arr [initialNamespace "p1"])])
    [initialNamespace "p1"] ["p1"] (by decide) rfl rfl rfl rfl

/-- C5: on a known cluster, `changeProjectPermission` either succeeds or
returns exactly the generic `RemoteAPIError` message, and each failure
mode in particular surfaces that one message: a non-200 status on the
role-binding GET, a transport failure of the GET (whatever the
underlying message — it is dropped, never returned verbatim), a non-200
status on the PUT, and a transport failure of the PUT. -/
theorem changeProjectPermission_error_collapse (env : Env σ) (s : RunState σ)
    (cid proj user : String) (hc : cid ∈ env.clusters) :
    ((changeProjectPermission env cid proj user s).1 = .ok () ∨
     (changeProjectPermission env cid proj user s).1 =
       .err (.remoteAPI genericAPIError)) ∧
    (∀ r rem,
      env.handle s.remote ⟨"GET", cid, rbPath proj, none⟩ = (.ok r, rem) →
      r.status ≠ 200 →
      (changeProjectPermission env cid proj user s).1 =
        .err (.remoteAPI genericAPIError)) ∧
    (∀ msg rem,
      env.handle s.remote ⟨"GET", cid, rbPath proj, none⟩ = (.error msg, rem) →
      (changeProjectPermission env cid proj user s).1 =
        .err (.remoteAPI genericAPIError)) ∧
    (∀ r rem doc r2 rem2,
      env.handle s.remote ⟨"GET", cid, rbPath proj, none⟩ = (.ok r, rem) →
      r.status = 200 → r.body = some doc →
      env.handle rem ⟨"PUT", cid, rbPath proj,
        some ((doc.arrayAppend (.str (strLower user)) "userNames").arrayAppend
          (.str (strUpper user)) "userNames")⟩ = (.ok r2, rem2) →
      r2.status ≠ 200 →
      (changeProjectPermission env cid proj user s).1 =
        .err (.remoteAPI genericAPIError)) ∧
    (∀ r rem doc msg rem2,
      env.handle s.remote ⟨"GET", cid, rbPath proj, none⟩ = (.ok r, rem) →
      r.status = 200 → r.body = some doc →
      env.handle rem ⟨"PUT", cid, rbPath proj,
        some ((doc.arrayAppend (.str (strLower user)) "userNames").arrayAppend
          (.str (strUpper user)) "userNames")⟩ = (.error msg, rem2) →
      (changeProjectPermission env cid proj user s).1 =
        .err (.remoteAPI genericAPIError)) := by
  refine ⟨?_, ?_, ?_, ?_, ?_⟩
  · unfold changeProjectPermission
    rcases hrb : getAdminRoleBinding env cid proj s with ⟨res, s1⟩
    have hres := getAdminRoleBinding_errors env cid proj s hc
    rw [hrb] at hres
    rcases hres with ⟨doc, hdoc⟩ | herr
    · simp only at hdoc
      subst hdoc
      dsimp only
      rcases getOseHTTPClient_cases env "PUT" cid (rbPath proj)
          (some ((doc.arrayAppend (.str (strLower user)) "userNames").arrayAppend
            (.str (strUpper user)) "userNames")) s1 hc with
        ⟨r, rem, -, hcall⟩ | ⟨rem, hcall⟩
      · rw [hcall]
        by_cases hst : r.status = 200 <;> simp [hst]
      · rw [hcall]
        simp
    · simp only at herr
      subst herr
      simp
  · intro r rem hget hst
    simp [changeProjectPermission, getAdminRoleBinding, getOseHTTPClient,
      hc, hget, hst]
  · intro msg rem hget
    simp [changeProjectPermission, getAdminRoleBinding, getOseHTTPClient,
      hc, hget]
  · intro r rem doc r2 rem2 hget hst hbody hput hst2
    have hrb : getAdminRoleBinding env cid proj s =
        (.ok doc, ⟨rem, s.trace ++ [⟨"GET", cid, rbPath proj, none⟩]⟩) := by
      simp [getAdminRoleBinding, getOseHTTPClient, hc, hget, hst, hbody]
    have hputcall : getOseHTTPClient env "PUT" cid (rbPath proj)
        (some ((doc.arrayAppend (.str (strLower user)) "userNames").arrayAppend
          (.str (strUpper user)) "userNames"))
        ⟨rem, s.trace ++ [⟨"GET", cid, rbPath proj, none⟩]⟩ =
        (.ok r2, ⟨rem2,
          (s.trace ++ [⟨"GET", cid, rbPath proj, none⟩]) ++
            [⟨"PUT", cid, rbPath proj,
              some ((doc.arrayAppend (.str (strLower user))
                "userNames").arrayAppend (.str (strUpper user))
                "userNames")⟩]⟩) := by
      simp [getOseHTTPClient, hc, hput]
    unfold changeProjectPermission
    rw [hrb]
    dsimp only
    rw [hputcall]
    dsimp only
    simp [hst2]
  · intro r rem doc msg rem2 hget hst hbody hput
    have hrb : getAdminRoleBinding env cid proj s =
        (.ok doc, ⟨rem, s.trace ++ [⟨"GET", cid, rbPath proj, none⟩]⟩) := by
      simp [getAdminRoleBinding, getOseHTTPClient, hc, hget, hst, hbody]
    have hputcall : getOseHTTPClient env "PUT" cid (rbPath proj)
        (some ((doc.arrayAppend (.str (strLower user)) "userNames").arrayAppend
          (.str (strUpper user)) "userNames"))
        ⟨rem, s.trace ++ [⟨"GET", cid, rbPath proj, none⟩]⟩ =
        (.error (.remoteAPI genericAPIError), ⟨rem2,
          (s.trace ++ [⟨"GET", cid, rbPath proj, none⟩]) ++
            [⟨"PUT", cid, rbPath proj,
              some ((doc.arrayAppend (.str (strLower user))
                "userNames").arrayAppend (.str (strUpper user))
                "userNames")⟩]⟩) := by
      simp [getOseHTTPClient, hc, hput]
    unfold changeProjectPermission
    rw [hrb]
    dsimp only
    rw [hputcall]

/-- C5 witness: on the modelled cluster a grant for a project with no
role-binding document gets a 404 on the GET, and the caller receives
exactly the generic message. -/
theorem changeProjectPermission_error_collapse_witness :
    (changeProjectPermission (oseEnv ["c1"]) "c1" "nosuch" "bob"
      ⟨⟨[], []⟩, []⟩).1 = .err (.remoteAPI genericAPIError) :=
  (changeProjectPermission_error_collapse (oseEnv ["c1"]) ⟨⟨[], []⟩, []⟩
    "c1" "nosuch" "bob" (by decide)).2.1
    ⟨404, some (statusDoc "NotFound")⟩ ⟨[], []⟩ (by rfl) (by decide)

/-- C2 (amended): a metadata upsert against a fetched namespace object
always sets the billing and requester annotations to the supplied
values; sets MEGA-ID only when the supplied megaid is non-empty, an
empty megaid leaving any prior MEGA-ID annotation untouched; for a
test-project upsert additionally sets the deletion-days and description
annotations (for a non-test upsert these keep their prior values);
every other annotation and every other field of the fetched object is
written back unchanged, and the write is a PUT of the full updated
object, not a partial patch. -/
theorem createOrUpdateMetadata_annotation_frame (env : Env σ)
    (cid project billing megaid username : String) (tp : Bool)
    (s : RunState σ) (fields md ann : List (String × Json)) (r : Response)
    (rem : σ)
    (hc : cid ∈ env.clusters)
    (hr : env.handle s.remote ⟨"GET", cid, nsPath project, none⟩ = (.ok r, rem))
    (hb : r.body = some (.obj fields))
    (hmd : lookupKey fields "metadata" = some (.obj md))
    (hann : lookupKey md "annotations" = some (.obj ann)) :
    (createOrUpdateMetadata env cid project billing megaid username tp s).2.trace =
      s.trace ++ [⟨"GET", cid, nsPath project, none⟩,
        ⟨"PUT", cid, nsPath project, some (Json.obj (setKey fields "metadata"
          (.obj (setKey md "annotations"
            (.obj (metadataAnnotationsUpdate billing megaid username tp ann))))))⟩] ∧
    lookupKey (metadataAnnotationsUpdate billing megaid username tp ann)
      kontierungKey = some (.str billing) ∧
    lookupKey (metadataAnnotationsUpdate billing megaid username tp ann)
      requesterKey = some (.str username) ∧
    (megaid ≠ "" →
      lookupKey (metadataAnnotationsUpdate billing megaid username tp ann)
        megaIdKey = some (.str megaid)) ∧
    (megaid = "" →
      lookupKey (metadataAnnotationsUpdate billing megaid username tp ann)
        megaIdKey = lookupKey ann megaIdKey) ∧
    (∀ k, k ≠ kontierungKey → k ≠ requesterKey → k ≠ megaIdKey →
      k ≠ daysToDeletionKey → k ≠ descriptionKey →
      lookupKey (metadataAnnotationsUpdate billing megaid username tp ann) k =
        lookupKey ann k) ∧
    (tp = false →
      lookupKey (metadataAnnotationsUpdate billing megaid username tp ann)
        daysToDeletionKey = lookupKey ann daysToDeletionKey ∧
      lookupKey (metadataAnnotationsUpdate billing megaid username tp ann)
        descriptionKey = lookupKey ann descriptionKey) ∧
    (tp = true →
      lookupKey (metadataAnnotationsUpdate billing megaid username tp ann)
        daysToDeletionKey = some (.str testProjectDeletionDays) ∧
      lookupKey (metadataAnnotationsUpdate billing megaid username tp ann)
        descriptionKey = some (.str testProjectDescriptionMsg)) ∧
    (∀ k, k ≠ "metadata" →
      lookupKey (setKey fields "metadata" (.obj (setKey md "annotations"
        (.obj (metadataAnnotationsUpdate billing megaid username tp ann))))) k =
        lookupKey fields k) ∧
    (∀ k, k ≠ "annotations" →
      lookupKey (setKey md "annotations"
        (.obj (metadataAnnotationsUpdate billing megaid username tp ann))) k =
        lookupKey md k) := by
  refine ⟨?_,
    metadataAnnotationsUpdate_kontierung billing megaid username tp ann,
    metadataAnnotationsUpdate_requester billing megaid username tp ann,
    fun hne => ?_, fun heq => ?_,
    metadataAnnotationsUpdate_other billing megaid username tp ann,
    fun htp => by subst htp
                  exact metadataAnnotationsUpdate_nonTestKeys billing megaid username ann,
    fun htp => by subst htp
                  exact metadataAnnotationsUpdate_testKeys billing megaid username ann,
    fun k hk => lookupKey_setKey_ne fields "metadata" _ k hk,
    fun k hk => lookupKey_setKey_ne md "annotations" _ k hk⟩
  · have hget : getOseHTTPClient env "GET" cid (nsPath project) none s =
        (.ok r, ⟨rem, s.trace ++ [⟨"GET", cid, nsPath project, none⟩]⟩) := by
      simp [getOseHTTPClient, hc, hr]
    have hupd : updateNamespaceDoc (.obj fields)
        (metadataAnnotationsUpdate billing megaid username tp) =
        some (.obj (setKey fields "metadata" (.obj (setKey md "annotations"
          (.obj (metadataAnnotationsUpdate billing megaid username tp ann)))))) := by
      simp [updateNamespaceDoc, hmd, hann]
    unfold createOrUpdateMetadata
    rw [hget]
    dsimp only
    rw [hb]
    dsimp only
    rw [hupd]
    dsimp only
    rcases getOseHTTPClient_cases env "PUT" cid (nsPath project)
        (some (Json.obj (setKey fields "metadata" (.obj (setKey md "annotations"
          (.obj (metadataAnnotationsUpdate billing megaid username tp ann)))))))
        ⟨rem, s.trace ++ [⟨"GET", cid, nsPath project, none⟩]⟩ hc with
      ⟨r2, rem2, -, hcall⟩ | ⟨rem2, hcall⟩
    · rw [hcall]
      dsimp only
      by_cases hst : r2.status = 200 <;> simp [hst]
    · rw [hcall]
      simp
  · have : megaid.length > 0 := by
      rcases Nat.eq_zero_or_pos megaid.length with h0 | hpos
      · exact absurd ((string_length_eq_zero megaid).mp h0) hne
      · exact hpos
    rw [metadataAnnotationsUpdate_megaid, if_pos this]
  · have : ¬ megaid.length > 0 := by
      subst heq
      decide
    rw [metadataAnnotationsUpdate_megaid, if_neg this]

/-- The namespace document used in the C2 counterexample and witness: it
already carries description and MEGA-ID annotations. -/
def c2doc : Json :=
  .obj [("metadata", .obj [("name", .str "p"),
    ("annotations", .obj [(descriptionKey, .str "old"),
                          (megaIdKey, .str "M0")])])]

/-- C2 counterexample: a test-project upsert (exactly the one issued on
the test-project creation path) overwrites the pre-existing description
annotation — a key other than billing, requester and MEGA-ID — so the
claim's "every other annotation is written back unchanged" fails as
stated for test-project upserts. -/
theorem createOrUpdateMetadata_overwrites_description :
    (createOrUpdateMetadata (oseEnv ["c1"]) "c1" "p" "b" "" "u" true
      ⟨⟨["p"], [(nsPath "p", c2doc)]⟩, []⟩).1 = .ok () ∧
    dataAsString (match lookupKey (createOrUpdateMetadata (oseEnv ["c1"])
        "c1" "p" "b" "" "u" true
        ⟨⟨["p"], [(nsPath "p", c2doc)]⟩, []⟩).2.remote.objects (nsPath "p") with
      | some d => annotationData d descriptionKey
      | none => none) = some testProjectDescriptionMsg ∧
    dataAsString (annotationData c2doc descriptionKey) = some "old" ∧
    some testProjectDescriptionMsg ≠ (some "old" : Option String) := by
  refine ⟨rfl, rfl, rfl, by decide⟩

/-- C2 witness: an upsert with empty MEGA-ID leaves the stored MEGA-ID
annotation at its prior value. -/
theorem createOrUpdateMetadata_annotation_frame_witness :
    lookupKey (metadataAnnotationsUpdate "B2" "" "u2" false
      [(descriptionKey, Json.str "old"), (megaIdKey, Json.str "M0")]) megaIdKey =
      lookupKey [(descriptionKey, Json.str "old"), (megaIdKey, Json.str "M0")]
        megaIdKey :=
  (createOrUpdateMetadata_annotation_frame (oseEnv ["c1"]) "c1" "p" "B2" "" "u2"
    false ⟨⟨["p"], [(nsPath "p", c2doc)]⟩, []⟩
    [("metadata", .obj [("name", .str "p"),
      ("annotations", .obj [(descriptionKey, .str "old"),
                            (megaIdKey, .str "M0")])])]
    [("name", .str "p"),
     ("annotations", .obj [(descriptionKey, .str "old"),
                           (megaIdKey, .str "M0")])]
    [(descriptionKey, .str "old"), (megaIdKey, .str "M0")]
    ⟨200, some c2doc⟩ ⟨["p"], [(nsPath "p", c2doc)]⟩
    (by decide) (by rfl) rfl rfl rfl).2.2.2.2.1 rfl

/-- One grant against the modelled cluster: the stored member list gets
the lower- and upper-cased username appended — no membership check. -/
theorem changeProjectPermission_ose (cls : List String) (cid proj u : String)
    (s : RunState ClusterState) (fields : List (String × Json)) (xs : List Json)
    (hc : cid ∈ cls)
    (hdoc : lookupKey s.remote.objects (rbPath proj) = some (.obj fields))
    (hun : lookupKey fields "userNames" = some (.arr xs)) :
    changeProjectPermission (oseEnv cls) cid proj u s =
      (.ok (),
       ⟨⟨s.remote.projects,
         setKey s.remote.objects (rbPath proj)
           (.obj (setKey fields "userNames"
             (.arr (xs ++ [.str (strLower u), .str (strUpper u)]))))⟩,
        s.trace ++ [⟨"GET", cid, rbPath proj, none⟩,
          ⟨"PUT", cid, rbPath proj, some (.obj (setKey fields "userNames"
            (.arr (xs ++ [.str (strLower u), .str (strUpper u)]))))⟩]⟩) := by
  have hhandle : openshiftHandle s.remote ⟨"GET", cid, rbPath proj, none⟩ =
      (.ok ⟨200, some (.obj fields)⟩, s.remote) := by
    simp [openshiftHandle, hdoc]
  have hget : getOseHTTPClient (oseEnv cls) "GET" cid (rbPath proj) none s =
      (.ok ⟨200, some (.obj fields)⟩,
       ⟨s.remote, s.trace ++ [⟨"GET", cid, rbPath proj, none⟩]⟩) := by
    simp [getOseHTTPClient, oseEnv, hc, hhandle]
  have hrb : getAdminRoleBinding (oseEnv cls) cid proj s =
      (.ok (.obj fields),
       ⟨s.remote, s.trace ++ [⟨"GET", cid, rbPath proj, none⟩]⟩) := by
    simp [getAdminRoleBinding, hget]
  have happ : ((Json.obj fields).arrayAppend (.str (strLower u))
        "userNames").arrayAppend (.str (strUpper u)) "userNames" =
      .obj (setKey fields "userNames"
        (.arr (xs ++ [.str (strLower u), .str (strUpper u)]))) := by
    simp [Json.arrayAppend, hun, lookupKey_setKey_self, setKey_setKey]
  have hput : openshiftHandle s.remote ⟨"PUT", cid, rbPath proj,
      some (.obj (setKey fields "userNames"
        (.arr (xs ++ [.str (strLower u), .str (strUpper u)]))))⟩ =
      (.ok ⟨200, some (.obj (setKey fields "userNames"
        (.arr (xs ++ [.str (strLower u), .str (strUpper u)]))))⟩,
       ⟨s.remote.projects, setKey s.remote.objects (rbPath proj)
         (.obj (setKey fields "userNames"
           (.arr (xs ++ [.str (strLower u), .str (strUpper u)]))))⟩) := by
    simp [openshiftHandle]
  have hputcall : getOseHTTPClient (oseEnv cls) "PUT" cid (rbPath proj)
      (some (.obj (setKey fields "userNames"
        (.arr (xs ++ [.str (strLower u), .str (strUpper u)])))))
      ⟨s.remote, s.trace ++ [⟨"GET", cid, rbPath proj, none⟩]⟩ =
      (.ok ⟨200, some (.obj (setKey fields "userNames"
        (.arr (xs ++ [.str (strLower u), .str (strUpper u)]))))⟩,
       ⟨⟨s.remote.projects, setKey s.remote.objects (rbPath proj)
          (.obj (setKey fields "userNames"
            (.arr (xs ++ [.str (strLower u), .str (strUpper u)]))))⟩,
        (s.trace ++ [⟨"GET", cid, rbPath proj, none⟩]) ++
          [⟨"PUT", cid, rbPath proj, some (.obj (setKey fields "userNames"
            (.arr (xs ++ [.str (strLower u), .str (strUpper u)]))))⟩]⟩) := by
    simp [getOseHTTPClient, oseEnv, hc, hput]
  unfold changeProjectPermission
  rw [hrb]
  dsimp only
  rw [happ, hputcall]
  dsimp only
  simp

/-- One metadata upsert against the modelled cluster: the full updated
document replaces the stored one. -/
theorem createOrUpdateMetadata_ose (cls : List String)
    (cid proj billing megaid u : String) (tp : Bool) (s : RunState ClusterState)
    (fields md ann : List (String × Json))
    (hc : cid ∈ cls)
    (hdoc : lookupKey s.remote.objects (nsPath proj) = some (.obj fields))
    (hmd : lookupKey fields "metadata" = some (.obj md))
    (hann : lookupKey md "annotations" = some (.obj ann)) :
    createOrUpdateMetadata (oseEnv cls) cid proj billing megaid u tp s =
      (.ok (),
       ⟨⟨s.remote.projects,
         setKey s.remote.objects (nsPath proj)
           (.obj (setKey fields "metadata" (.obj (setKey md "annotations"
             (.obj (metadataAnnotationsUpdate billing megaid u tp ann))))))⟩,
        s.trace ++ [⟨"GET", cid, nsPath proj, none⟩,
          ⟨"PUT", cid, nsPath proj, some (.obj (setKey fields "metadata"
            (.obj (setKey md "annotations"
              (.obj (metadataAnnotationsUpdate billing megaid u tp ann))))))⟩]⟩) := by
  have hhandle : openshiftHandle s.remote ⟨"GET", cid, nsPath proj, none⟩ =
      (.ok ⟨200, some (.obj fields)⟩, s.remote) := by
    simp [openshiftHandle, hdoc]
  have hget : getOseHTTPClient (oseEnv cls) "GET" cid (nsPath proj) none s =
      (.ok ⟨200, some (.obj fields)⟩,
       ⟨s.remote, s.trace ++ [⟨"GET", cid, nsPath proj, none⟩]⟩) := by
    simp [getOseHTTPClient, oseEnv, hc, hhandle]
  have hupd : updateNamespaceDoc (.obj fields)
      (metadataAnnotationsUpdate billing megaid u tp) =
      some (.obj (setKey fields "metadata" (.obj (setKey md "annotations"
        (.obj (metadataAnnotationsUpdate billing megaid u tp ann)))))) := by
    simp [updateNamespaceDoc, hmd, hann]
  have hput : openshiftHandle s.remote ⟨"PUT", cid, nsPath proj,
      some (.obj (setKey fields "metadata" (.obj (setKey md "annotations"
        (.obj (metadataAnnotationsUpdate billing megaid u tp ann))))))⟩ =
      (.ok ⟨200, some (.obj (setKey fields "metadata" (.obj (setKey md "annotations"
        (.obj (metadataAnnotationsUpdate billing megaid u tp ann))))))⟩,
       ⟨s.remote.projects, setKey s.remote.objects (nsPath proj)
         (.obj (setKey fields "metadata" (.obj (setKey md "annotations"
           (.obj (metadataAnnotationsUpdate billing megaid u tp ann))))))⟩) := by
    simp [openshiftHandle]
  have hputcall : getOseHTTPClient (oseEnv cls) "PUT" cid (nsPath proj)
      (some (.obj (setKey fields "metadata" (.obj (setKey md "annotations"
        (.obj (metadataAnnotationsUpdate billing megaid u tp ann)))))))
      ⟨s.remote, s.trace ++ [⟨"GET", cid, nsPath proj, none⟩]⟩ =
      (.ok ⟨200, some (.obj (setKey fields "metadata" (.obj (setKey md "annotations"
        (.obj (metadataAnnotationsUpdate billing megaid u tp ann))))))⟩,
       ⟨⟨s.remote.projects, setKey s.remote.objects (nsPath proj)
          (.obj (setKey fields "metadata" (.obj (setKey md "annotations"
            (.obj (metadataAnnotationsUpdate billing megaid u tp ann))))))⟩,
        (s.trace ++ [⟨"GET", cid, nsPath proj, none⟩]) ++
          [⟨"PUT", cid, nsPath proj, some (.obj (setKey fields "metadata"
            (.obj (setKey md "annotations"
              (.obj (metadataAnnotationsUpdate billing megaid u tp ann))))))⟩]⟩) := by
    simp [getOseHTTPClient, oseEnv, hc, hput]
  unfold createOrUpdateMetadata
  rw [hget]
  dsimp only
  rw [hupd]
  dsimp only
  rw [hputcall]
  dsimp only
  simp

/-- The namespace document stored after the metadata step of a fresh
creation (annotations start empty on the modelled cluster). -/
def createdNamespace (n billing megaid u : String) (tp : Bool) : Json :=
  .obj [("kind", .str "Namespace"),
        ("metadata", .obj [("name", .str n),
          ("annotations",
           .obj (metadataAnnotationsUpdate billing megaid u tp []))])]

theorem annotationData_createdNamespace (nm b m u : String) (tp : Bool)
    (key : String) :
    annotationData (createdNamespace nm b m u tp) key =
      lookupKey (metadataAnnotationsUpdate b m u tp []) key := by
  simp [annotationData, createdNamespace, lookupKey]

/-- A fresh creation on the modelled cluster: POST answers 201 and
creates the two documents, the grant appends the case pair, the
metadata step rewrites the annotations, and the full run succeeds. -/
theorem createNewProject_ose_fresh (cls : List String)
    (cid p u billing megaid : String) (tp : Bool) (s : RunState ClusterState)
    (hc : cid ∈ cls) (hfresh : strLower p ∉ s.remote.projects) :
    createNewProject (oseEnv cls) cid p u billing megaid tp s =
      (.ok (),
       ⟨⟨s.remote.projects ++ [strLower p],
         setKey (setKey (setKey (setKey s.remote.objects
           (nsPath (strLower p)) (initialNamespace (strLower p)))
           (rbPath (strLower p)) initialRoleBinding)
           (rbPath (strLower p))
           (.obj [("userNames",
             .arr [.str (strLower u), .str (strUpper u)])]))
           (nsPath (strLower p))
           (createdNamespace (strLower p) billing megaid u tp)⟩,
        s.trace ++
          [⟨"POST", cid, "oapi/v1/projectrequests",
            some (newObjectRequest "ProjectRequest" (strLower p))⟩,
           ⟨"GET", cid, rbPath (strLower p), none⟩,
           ⟨"PUT", cid, rbPath (strLower p),
            some (.obj [("userNames",
              .arr [.str (strLower u), .str (strUpper u)])])⟩,
           ⟨"GET", cid, nsPath (strLower p), none⟩,
           ⟨"PUT", cid, nsPath (strLower p),
            some (createdNamespace (strLower p) billing megaid u tp)⟩]⟩) := by
  have hname : requestName (some (newObjectRequest "ProjectRequest"
      (strLower p))) = some (strLower p) := by
    simp [requestName, newObjectRequest, Json.getField, lookupKey]
  have hpost : openshiftHandle s.remote ⟨"POST", cid, "oapi/v1/projectrequests",
      some (newObjectRequest "ProjectRequest" (strLower p))⟩ =
      (.ok ⟨201, some (statusDoc "Created")⟩,
       ⟨s.remote.projects ++ [strLower p],
        setKey (setKey s.remote.objects (nsPath (strLower p))
          (initialNamespace (strLower p))) (rbPath (strLower p))
          initialRoleBinding⟩) := by
    simp [openshiftHandle, hname, hfresh]
  have hpostcall : getOseHTTPClient (oseEnv cls) "POST" cid
      "oapi/v1/projectrequests"
      (some (newObjectRequest "ProjectRequest" (strLower p))) s =
      (.ok ⟨201, some (statusDoc "Created")⟩,
       ⟨⟨s.remote.projects ++ [strLower p],
         setKey (setKey s.remote.objects (nsPath (strLower p))
           (initialNamespace (strLower p))) (rbPath (strLower p))
           initialRoleBinding⟩,
        s.trace ++ [⟨"POST", cid, "oapi/v1/projectrequests",
          some (newObjectRequest "ProjectRequest" (strLower p))⟩]⟩) := by
    simp [getOseHTTPClient, oseEnv, hc, hpost]
  have hdoc1 : lookupKey (setKey (setKey s.remote.objects
      (nsPath (strLower p)) (initialNamespace (strLower p)))
      (rbPath (strLower p)) initialRoleBinding) (rbPath (strLower p)) =
      some (.obj [("userNames", Json.arr [])]) :=
    lookupKey_setKey_self _ _ _
  have hgrant := changeProjectPermission_ose cls cid (strLower p) u
    ⟨⟨s.remote.projects ++ [strLower p],
      setKey (setKey s.remote.objects (nsPath (strLower p))
        (initialNamespace (strLower p))) (rbPath (strLower p))
        initialRoleBinding⟩,
     s.trace ++ [⟨"POST", cid, "oapi/v1/projectrequests",
       some (newObjectRequest "ProjectRequest" (strLower p))⟩]⟩
    [("userNames", Json.arr [])] [] hc hdoc1 rfl
  have hdoc2 : lookupKey (setKey (setKey (setKey s.remote.objects
      (nsPath (strLower p)) (initialNamespace (strLower p)))
      (rbPath (strLower p)) initialRoleBinding)
      (rbPath (strLower p))
      (.obj (setKey [("userNames", Json.arr [])] "userNames"
        (.arr ([] ++ [.str (strLower u), .str (strUpper u)])))))
      (nsPath (strLower p)) =
      some (.obj [("kind", .str "Namespace"),
        ("metadata", .obj [("name", .str (strLower p)),
          ("annotations", .obj [])])]) := by
    rw [lookupKey_setKey_ne _ _ _ _ (nsPath_ne_rbPath (strLower p) (strLower p))]
    rw [lookupKey_setKey_ne _ _ _ _ (nsPath_ne_rbPath (strLower p) (strLower p))]
    exact lookupKey_setKey_self _ _ _
  have hmeta := createOrUpdateMetadata_ose cls cid (strLower p) billing megaid
    u tp
    ⟨⟨s.remote.projects ++ [strLower p],
      setKey (setKey (setKey s.remote.objects (nsPath (strLower p))
        (initialNamespace (strLower p))) (rbPath (strLower p))
        initialRoleBinding)
        (rbPath (strLower p))
        (.obj (setKey [("userNames", Json.arr [])] "userNames"
          (.arr ([] ++ [.str (strLower u), .str (strUpper u)]))))⟩,
     (s.trace ++ [⟨"POST", cid, "oapi/v1/projectrequests",
        some (newObjectRequest "ProjectRequest" (strLower p))⟩]) ++
       [⟨"GET", cid, rbPath (strLower p), none⟩,
        ⟨"PUT", cid, rbPath (strLower p),
         some (.obj (setKey [("userNames", Json.arr [])] "userNames"
           (.arr ([] ++ [.str (strLower u), .str (strUpper u)]))))⟩]⟩
    [("kind", .str "Namespace"),
     ("metadata", .obj [("name", .str (strLower p)), ("annotations", .obj [])])]
    [("name", .str (strLower p)), ("annotations", .obj [])] []
    hc hdoc2 rfl rfl
  unfold createNewProject
  dsimp only
  rw [hpostcall]
  dsimp only
  rw [if_pos rfl]
  rw [hgrant]
  dsimp only
  rw [hmeta]
  dsimp only
  simp [createdNamespace, setKey]

/-- A creation of an already-existing name on the modelled cluster: the
POST answers 409 and only the POST is issued. -/
theorem createNewProject_ose_conflict (cls : List String)
    (cid p u billing megaid : String) (tp : Bool) (s : RunState ClusterState)
    (hc : cid ∈ cls) (htaken : strLower p ∈ s.remote.projects) :
    createNewProject (oseEnv cls) cid p u billing megaid tp s =
      (.err (.alreadyExists "The project already exists"),
       ⟨s.remote, s.trace ++ [⟨"POST", cid, "oapi/v1/projectrequests",
          some (newObjectRequest "ProjectRequest" (strLower p))⟩]⟩) := by
  have hname : requestName (some (newObjectRequest "ProjectRequest"
      (strLower p))) = some (strLower p) := by
    simp [requestName, newObjectRequest, Json.getField, lookupKey]
  have hpost : openshiftHandle s.remote ⟨"POST", cid, "oapi/v1/projectrequests",
      some (newObjectRequest "ProjectRequest" (strLower p))⟩ =
      (.ok ⟨409, some (statusDoc "AlreadyExists")⟩, s.remote) := by
    simp [openshiftHandle, hname, htaken]
  have hpostcall : getOseHTTPClient (oseEnv cls) "POST" cid
      "oapi/v1/projectrequests"
      (some (newObjectRequest "ProjectRequest" (strLower p))) s =
      (.ok ⟨409, some (statusDoc "AlreadyExists")⟩,
       ⟨s.remote, s.trace ++ [⟨"POST", cid, "oapi/v1/projectrequests",
         some (newObjectRequest "ProjectRequest" (strLower p))⟩]⟩) := by
    simp [getOseHTTPClient, oseEnv, hc, hpost]
  unfold createNewProject
  dsimp only
  rw [hpostcall]
  dsimp only
  simp

/-- Reading the information of a project whose stored namespace document
is the one written at creation. -/
theorem getProjectInformation_ose_read (cls : List String)
    (cid proj b m u : String) (tp : Bool) (s : RunState ClusterState)
    (hc : cid ∈ cls)
    (hdoc : lookupKey s.remote.objects (nsPath proj) =
      some (createdNamespace proj b m u tp)) :
    (getProjectInformation (oseEnv cls) cid proj s).1 = .ok ⟨b, m⟩ := by
  have hhandle : openshiftHandle s.remote ⟨"GET", cid, nsPath proj, none⟩ =
      (.ok ⟨200, some (createdNamespace proj b m u tp)⟩, s.remote) := by
    simp [openshiftHandle, hdoc]
  have hcall : getOseHTTPClient (oseEnv cls) "GET" cid (nsPath proj) none s =
      (.ok ⟨200, some (createdNamespace proj b m u tp)⟩,
       ⟨s.remote, s.trace ++ [⟨"GET", cid, nsPath proj, none⟩]⟩) := by
    simp [getOseHTTPClient, oseEnv, hc, hhandle]
  unfold getProjectInformation
  rw [hcall]
  dsimp only
  rw [annotationData_createdNamespace, annotationData_createdNamespace,
      metadataAnnotationsUpdate_kontierung, metadataAnnotationsUpdate_megaid]
  by_cases hm : m.length > 0
  · rw [if_pos hm]
    rfl
  · rw [if_neg hm]
    have hme : m = "" :=
      (string_length_eq_zero m).mp (Nat.eq_zero_of_not_pos hm)
    subst hme
    rfl

/-- C3: after a successful project creation with billing b and MEGA-ID m
on a known cluster, a subsequent `getProjectInformation` for the stored
(lower-cased) project name on the same cluster returns exactly
Kontierungsnummer = b and MegaID = m; an empty m is stored as no
annotation and reads back as the empty string. -/
theorem creation_information_roundtrip (cls : List String)
    (cid p u b m : String) (tp : Bool) (s s2 : RunState ClusterState)
    (hc : cid ∈ cls)
    (hok : createNewProject (oseEnv cls) cid p u b m tp s = (.ok (), s2)) :
    (getProjectInformation (oseEnv cls) cid (strLower p) s2).1 = .ok ⟨b, m⟩ := by
  by_cases hfresh : strLower p ∈ s.remote.projects
  · rw [createNewProject_ose_conflict cls cid p u b m tp s hc hfresh] at hok
    simp at hok
  · rw [createNewProject_ose_fresh cls cid p u b m tp s hc hfresh] at hok
    obtain ⟨-, hs2⟩ := (Prod.mk.injEq _ _ _ _).mp hok
    subst hs2
    exact getProjectInformation_ose_read cls cid (strLower p) b m u tp _
      hc (lookupKey_setKey_self _ _ _)

/-- C3 witness: a concrete creation followed by the information read. -/
theorem creation_information_roundtrip_witness :
    (getProjectInformation (oseEnv ["c1"]) "c1" (strLower "MyProj")
      (createNewProject (oseEnv ["c1"]) "c1" "MyProj" "bob" "B1" "M1" false
        ⟨⟨[], []⟩, []⟩).2).1 = .ok ⟨"B1", "M1"⟩ :=
  creation_information_roundtrip ["c1"] "c1" "MyProj" "bob" "B1" "M1" false
    ⟨⟨[], []⟩, []⟩ _ (by decide) (by rfl)

/-- C7: a test-project creation request with requested name n by creator
c stores the project under the lower-cased "{c}-{n}" — e.g. "alice-demo"
for creator "alice" and name "demo" — with the billing annotation forced
to the fixed no-billing sentinel "keine-verrechnung" and the
deletion-days and description annotations set in the stored metadata;
the handler reports success for the prefixed name. -/
theorem testProject_creation_properties (cls : List String) (cid c n : String)
    (s : RunState ClusterState)
    (hc : cid ∈ cls) (hfresh : strLower (c ++ "-" ++ n) ∉ s.remote.projects) :
    (newTestProjectHandler (oseEnv cls) c (some ⟨n, cid⟩) s).1 =
      [(200, .message ("Das Test-Projekt " ++ (c ++ "-" ++ n) ++
        " wurde erstellt auf Cluster " ++ cid))] ∧
    (newTestProjectHandler (oseEnv cls) c (some ⟨n, cid⟩) s).2.remote.projects =
      s.remote.projects ++ [strLower (c ++ "-" ++ n)] ∧
    lookupKey (newTestProjectHandler (oseEnv cls) c
        (some ⟨n, cid⟩) s).2.remote.objects
        (nsPath (strLower (c ++ "-" ++ n))) =
      some (createdNamespace (strLower (c ++ "-" ++ n))
        "keine-verrechnung" "" c true) ∧
    annotationData (createdNamespace (strLower (c ++ "-" ++ n))
      "keine-verrechnung" "" c true) kontierungKey =
      some (.str "keine-verrechnung") ∧
    annotationData (createdNamespace (strLower (c ++ "-" ++ n))
      "keine-verrechnung" "" c true) daysToDeletionKey =
      some (.str testProjectDeletionDays) ∧
    annotationData (createdNamespace (strLower (c ++ "-" ++ n))
      "keine-verrechnung" "" c true) descriptionKey =
      some (.str testProjectDescriptionMsg) := by
  have hdata : (c ++ "-" ++ n).data = c.data ++ '-' :: n.data := by
    rw [string_data_append, string_data_append]
    simp
  have hlen : ¬ (c ++ "-" ++ n).length = 0 := by
    show ¬ (c ++ "-" ++ n).data.length = 0
    rw [hdata]
    simp only [List.length_append, List.length_cons]
    omega
  have hval : validateNewProject (c ++ "-" ++ n) "keine-verrechnung" true =
      .ok () := by
    unfold validateNewProject
    rw [if_neg hlen]
    rfl
  have hrun := createNewProject_ose_fresh cls cid (c ++ "-" ++ n) c
    "keine-verrechnung" "" true s hc hfresh
  unfold newTestProjectHandler
  dsimp only
  rw [hval]
  dsimp only
  rw [hrun]
  dsimp only
  refine ⟨rfl, rfl, lookupKey_setKey_self _ _ _, ?_, ?_, ?_⟩
  · rw [annotationData_createdNamespace]
    exact metadataAnnotationsUpdate_kontierung _ _ _ _ _
  · rw [annotationData_createdNamespace]
    exact (metadataAnnotationsUpdate_testKeys _ _ _ _).1
  · rw [annotationData_createdNamespace]
    exact (metadataAnnotationsUpdate_testKeys _ _ _ _).2

/-- C7 witness: creator "alice", requested name "demo": the stored
project name is "alice-demo". -/
theorem testProject_creation_properties_witness :
    (newTestProjectHandler (oseEnv ["c1"]) "alice" (some ⟨"demo", "c1"⟩)
      ⟨⟨[], []⟩, []⟩).2.remote.projects = ["alice-demo"] := by
  rw [(testProject_creation_properties ["c1"] "c1" "alice" "demo"
    ⟨⟨[], []⟩, []⟩ (by decide) (by decide)).2.1]
  rfl

/-- The claim C4's reading of "entries for u" in a role-binding member
list: the string members equal to u up to letter case. -/
def userNameEntries (doc : Json) (u : String) : List String :=
  match doc.getField "userNames" with
  | some (.arr xs) =>
      (xs.filterMap fun j => match j with | .str s2 => some s2 | _ => none).filter
        (fun s2 => strLower s2 == strLower u)
  | _ => []

/-- C4 counterexample: from a freshly created role binding, two
successful grants for "bob" leave four entries for the user — two
lower-case and two upper-case copies — not exactly two. -/
theorem double_grant_four_entries :
    (changeProjectPermission (oseEnv ["c1"]) "c1" "proj" "bob"
      (changeProjectPermission (oseEnv ["c1"]) "c1" "proj" "bob"
        ⟨⟨["proj"], [(rbPath "proj", initialRoleBinding)]⟩, []⟩).2).1 = .ok () ∧
    (match lookupKey (changeProjectPermission (oseEnv ["c1"]) "c1" "proj" "bob"
        (changeProjectPermission (oseEnv ["c1"]) "c1" "proj" "bob"
          ⟨⟨["proj"], [(rbPath "proj", initialRoleBinding)]⟩, []⟩).2).2.remote.objects
        (rbPath "proj") with
      | some d => userNameEntries d "bob"
      | none => []) = ["bob", "BOB", "bob", "BOB"] ∧
    (["bob", "BOB", "bob", "BOB"].length = 2 → False) := by
  refine ⟨rfl, rfl, by decide⟩

/-- C4 (amended): each successful grant appends the lower- and
upper-cased forms of the username to the member list without any
membership check, so two successful invocations for the same user leave
four entries for that user (two lower-case and two upper-case copies,
e.g. "bob", "BOB", "bob", "BOB"), not two. -/
theorem double_grant_appends_case_pair_twice (cls : List String)
    (cid proj u : String) (s : RunState ClusterState)
    (fields : List (String × Json)) (xs : List Json)
    (hc : cid ∈ cls)
    (hdoc : lookupKey s.remote.objects (rbPath proj) = some (.obj fields))
    (hun : lookupKey fields "userNames" = some (.arr xs)) :
    (changeProjectPermission (oseEnv cls) cid proj u s).1 = .ok () ∧
    (changeProjectPermission (oseEnv cls) cid proj u
      (changeProjectPermission (oseEnv cls) cid proj u s).2).1 = .ok () ∧
    lookupKey (changeProjectPermission (oseEnv cls) cid proj u
        (changeProjectPermission (oseEnv cls) cid proj u s).2).2.remote.objects
        (rbPath proj) =
      some (.obj (setKey fields "userNames"
        (.arr (xs ++ [.str (strLower u), .str (strUpper u),
                      .str (strLower u), .str (strUpper u)])))) := by
  have h1 := changeProjectPermission_ose cls cid proj u s fields xs hc hdoc hun
  have hdoc2 : lookupKey (changeProjectPermission (oseEnv cls) cid proj u
      s).2.remote.objects (rbPath proj) =
      some (.obj (setKey fields "userNames"
        (.arr (xs ++ [.str (strLower u), .str (strUpper u)])))) := by
    rw [h1]
    exact lookupKey_setKey_self _ _ _
  have hun2 : lookupKey (setKey fields "userNames"
      (.arr (xs ++ [.str (strLower u), .str (strUpper u)]))) "userNames" =
      some (.arr (xs ++ [.str (strLower u), .str (strUpper u)])) :=
    lookupKey_setKey_self _ _ _
  have h2 := changeProjectPermission_ose cls cid proj u
    (changeProjectPermission (oseEnv cls) cid proj u s).2
    (setKey fields "userNames"
      (.arr (xs ++ [.str (strLower u), .str (strUpper u)])))
    (xs ++ [.str (strLower u), .str (strUpper u)]) hc hdoc2 hun2
  refine ⟨by rw [h1], by rw [h2], ?_⟩
  rw [h2]
  dsimp only
  rw [lookupKey_setKey_self, setKey_setKey]
  simp

/-- C4 witness for the amended claim: the concrete double grant. -/
theorem double_grant_appends_case_pair_twice_witness :
    lookupKey (changeProjectPermission (oseEnv ["c1"]) "c1" "proj" "bob"
        (changeProjectPermission (oseEnv ["c1"]) "c1" "proj" "bob"
          ⟨⟨["proj"], [(rbPath "proj", initialRoleBinding)]⟩, []⟩).2).2.remote.objects
        (rbPath "proj") =
      some (.obj (setKey [("userNames", Json.arr [])] "userNames"
        (.arr ([] ++ [.str (strLower "bob"), .str (strUpper "bob"),
                      .str (strLower "bob"), .str (strUpper "bob")])))) :=
  (double_grant_appends_case_pair_twice ["c1"] "c1" "proj" "bob"
    ⟨⟨["proj"], [(rbPath "proj", initialRoleBinding)]⟩, []⟩
    [("userNames", Json.arr [])] [] (by decide) rfl rfl).2.2

/-- C1: once the creation POST has been answered, its HTTP status alone
determines the outcome: 201 advances to the permission and metadata
steps, 409 terminates with the AlreadyExistsError (and the final trace
shows no further request — no permission or metadata write), and any
other status terminates with the generic RemoteAPIError (again with no
further request). -/
theorem createNewProject_post_status_determines_outcome (env : Env σ)
    (s : RunState σ) (cid p u b m : String) (tp : Bool) (r : Response) (rem : σ)
    (hc : cid ∈ env.clusters)
    (hpost : env.handle s.remote
      ⟨"POST", cid, "oapi/v1/projectrequests",
        some (newObjectRequest "ProjectRequest" (strLower p))⟩ = (.ok r, rem)) :
    (r.status = 201 → createNewProject env cid p u b m tp s =
      (match changeProjectPermission env cid (strLower p) u
          ⟨rem, s.trace ++ [⟨"POST", cid, "oapi/v1/projectrequests",
            some (newObjectRequest "ProjectRequest" (strLower p))⟩]⟩ with
       | (.err e, s2) => (.err e, s2)
       | (.panicked, s2) => (.panicked, s2)
       | (.ok _, s2) =>
          match createOrUpdateMetadata env cid (strLower p) b m u tp s2 with
          | (.err e, s3) => (.err e, s3)
          | (.panicked, s3) => (.panicked, s3)
          | (.ok _, s3) => (.ok (), s3))) ∧
    (r.status = 409 → createNewProject env cid p u b m tp s =
      (.err (.alreadyExists "The project already exists"),
       ⟨rem, s.trace ++ [⟨"POST", cid, "oapi/v1/projectrequests",
          some (newObjectRequest "ProjectRequest" (strLower p))⟩]⟩)) ∧
    (r.status ≠ 201 → r.status ≠ 409 → createNewProject env cid p u b m tp s =
      (.err (.remoteAPI genericAPIError),
       ⟨rem, s.trace ++ [⟨"POST", cid, "oapi/v1/projectrequests",
          some (newObjectRequest "ProjectRequest" (strLower p))⟩]⟩)) := by
  refine ⟨fun h201 => ?_, fun h409 => ?_, fun hn1 hn2 => ?_⟩
  · simp [createNewProject, getOseHTTPClient, hc, hpost, h201]
  · have : r.status ≠ 201 := by rw [h409]; decide
    simp [createNewProject, getOseHTTPClient, hc, hpost, this, h409]
  · simp [createNewProject, getOseHTTPClient, hc, hpost, hn1, hn2]

/-- C1 witness: the 409 branch on the modelled cluster — creating an
already-existing project yields the AlreadyExistsError and the trace
holds the POST only. -/
theorem createNewProject_post_status_witness :
    createNewProject (oseEnv ["c1"]) "c1" "p" "u" "b" "m" false
        ⟨⟨["p"], []⟩, []⟩ =
      (.err (.alreadyExists "The project already exists"),
       ⟨⟨["p"], []⟩, [⟨"POST", "c1", "oapi/v1/projectrequests",
          some (newObjectRequest "ProjectRequest" "p")⟩]⟩) :=
  (createNewProject_post_status_determines_outcome (oseEnv ["c1"])
    ⟨⟨["p"], []⟩, []⟩ "c1" "p" "u" "b" "m" false
    ⟨409, some (statusDoc "AlreadyExists")⟩ ⟨["p"], []⟩
    (by decide) (by rfl)).2.1 rfl

/-- C10: when access validation succeeds but `getProjectInformation`
returns an error, the handler writes the 400 error response and then —
the error branch does not return — also writes a 200 response whose body
is the nil `ProjectInformation`. -/
theorem getProjectInformationHandler_error_then_ok (env : Env σ)
    (s s1 s2 : RunState σ) (cid proj user : String) (e : Err)
    (hv : validateAdminAccess env cid user proj s = (.ok (), s1))
    (hg : getProjectInformation env cid proj s1 = (.err e, s2)) :
    getProjectInformationHandler env cid proj user s =
      ([(400, .message e.message), (200, .projectInfo none)], s2) := by
  simp [getProjectInformationHandler, hv, hg]

/-- A concrete environment for the C10 witness: the role-binding GET
succeeds (so access validation passes) while every other request fails
at the transport level (so the information read errs). -/
def c10env : Env Unit :=
  ⟨["c1"], fun _ req =>
    if req.apiPath = rbPath "p" then
      (.ok ⟨200, some (.obj [("userNames", .arr [.str "alice"])])⟩, ())
    else (.error "connection refused", ())⟩

/-- C10 witness: the handler writes 400 followed by 200/nil. -/
theorem getProjectInformationHandler_error_then_ok_witness :
    (getProjectInformationHandler c10env "c1" "p" "alice" ⟨(), []⟩).1 =
      [(400, .message genericAPIError), (200, .projectInfo none)] := by
  rw [getProjectInformationHandler_error_then_ok c10env ⟨(), []⟩
    ⟨(), [⟨"GET", "c1", rbPath "p", none⟩]⟩
    ⟨(), [⟨"GET", "c1", rbPath "p", none⟩, ⟨"GET", "c1", nsPath "p", none⟩]⟩
    "c1" "p" "alice" (.remoteAPI genericAPIError) (by rfl) (by rfl)]
  rfl

end SSP
